import Mathlib

/-!
Shallow embedding of the homebridge-casatunes plugin core
(`src/platform.ts`, `src/platformAccessory.ts`).

JavaScript strings are modelled as Lean `String` (lists of characters);
`String.prototype.match(pat)` / `String.prototype.includes(pat)` with a
plain-text pattern are substring tests, modelled by `strContains`;
`String.prototype.substring(n, s.length)` is modelled by dropping the
first `n` characters.  Network effects are made explicit: each operation
takes the service's JSON response as an input and reports the number of
network requests it issued.  A JavaScript `TypeError` thrown by
dereferencing `undefined` is modelled with `Except`.
-/

/-- Predicate `listStarts pat l` is true when `pat` is an initial segment of `l`
(character-for-character, using `==`). -/
def listStarts [BEq α] : List α → List α → Bool
  | [], _ => true
  | _ :: _, [] => false
  | a :: as, b :: bs => a == b && listStarts as bs

/-- Predicate `listHasSub pat l` is true when `pat` occurs contiguously somewhere in `l`. -/
def listHasSub [BEq α] : List α → List α → Bool
  | pat, [] => pat.isEmpty
  | pat, b :: bs => listStarts pat (b :: bs) || listHasSub pat bs

/-- Substring containment on strings: the semantics of JavaScript
`s.match(pat)` being truthy / `s.includes(pat)` for a literal pattern. -/
def strContains (s pat : String) : Bool :=
  listHasSub pat.data s.data

/-- Offset-zero occurrence: `pat` occurs at the very start of `s`
(JavaScript `s.startsWith(pat)`); used to state the trimming claims. -/
def strStarts (s pat : String) : Bool :=
  listStarts pat.data s.data

theorem listStarts_iff [DecidableEq α] (pat l : List α) :
    listStarts pat l = true ↔ ∃ t, l = pat ++ t := by
  induction pat generalizing l with
  | nil => simp [listStarts]
  | cons a as ih =>
    cases l with
    | nil => simp [listStarts]
    | cons b bs =>
      simp only [listStarts, Bool.and_eq_true, beq_iff_eq, ih, List.cons_append,
        List.cons.injEq]
      constructor
      · rintro ⟨rfl, t, rfl⟩; exact ⟨t, rfl, rfl⟩
      · rintro ⟨t, rfl, rfl⟩; exact ⟨rfl, t, rfl⟩

theorem listHasSub_of_listStarts [BEq α] (pat l : List α)
    (h : listStarts pat l = true) : listHasSub pat l = true := by
  cases l with
  | nil => cases pat with
    | nil => rfl
    | cons a as => simp [listStarts] at h
  | cons b bs => simp [listHasSub, h]

theorem strContains_of_strStarts (s pat : String) (h : strStarts s pat = true) :
    strContains s pat = true :=
  listHasSub_of_listStarts pat.data s.data h

/-! ## Platform information (`fetchPlatformInfo`, platform.ts lines 89-121) -/

/-- The `/system/info` response fields the code reads. -/
structure SystemInfo where
  AppName : String
  /-- Field `info.MatrixInfo[0].Title` of the response. -/
  MatrixTitle : String
  CasaTunesVersion : String
deriving DecidableEq

/-- The platform's `platformInfo` record. -/
structure PlatformInfo where
  Manufacturer : String
  Model : String
  SoftwareRevision : String
deriving DecidableEq

/-- Lines 108-114: if the model string contains `"Matrix: "` anywhere
(`includes`), drop its first 8 characters (`substring(8, length)`). -/
def trimModel (m : String) : String :=
  if strContains m "Matrix: " then ⟨m.data.drop ("Matrix: ".data.length)⟩ else m

/-- Result of one `fetchPlatformInfo` call: the new `platformInfo` state,
the number of network requests issued, and whether the configuration
error was logged. -/
structure PlatformInfoResult where
  info : PlatformInfo
  writes : Nat
  configErrorLogged : Bool
deriving DecidableEq

/-- Method `fetchPlatformInfo` (platform.ts lines 89-121): if the configured URI
contains `"undefined"`, log the configuration error and stop; otherwise
issue one request and store the response fields, trimming the model. -/
def fetchPlatformInfoModel (uri : String) (prev : PlatformInfo)
    (resp : SystemInfo) : PlatformInfoResult :=
  if strContains uri "undefined" then
    { info := prev, writes := 0, configErrorLogged := true }
  else
    { info := { Manufacturer := resp.AppName, Model := trimModel resp.MatrixTitle,
                SoftwareRevision := resp.CasaTunesVersion },
      writes := 1, configErrorLogged := false }

/-! ## Zone fetching (`fetchZones`, platform.ts lines 126-160) -/

/-- A zone entry of the `/zones` response (the fields the code reads). -/
structure RawZone where
  Name : String
  PersistentZoneID : String
deriving DecidableEq

/-- The `zoneInfo` interface of platform.ts. -/
structure zoneInfo where
  Name : String
  ID : String
deriving DecidableEq

/-- JavaScript `arr[i] = x` for `i ≤ arr.length`: overwrite in place, or
append when `i = arr.length`. -/
def setIdx (arr : List zoneInfo) (i : Nat) (x : zoneInfo) : List zoneInfo :=
  if i < arr.length then arr.set i x else arr ++ [x]

/-- The loop of `fetchZones` (lines 141-158): walk the response, skip
entries whose `PersistentZoneID` contains `'@'`, and store the others at
`zonesArray[count]`, incrementing `count`.  Note the previous contents of
`zonesArray` are not cleared first. -/
def fetchZonesLoop : List RawZone → List zoneInfo → Nat → List zoneInfo
  | [], arr, _ => arr
  | z :: rest, arr, count =>
    if strContains z.PersistentZoneID "@" then
      fetchZonesLoop rest arr count
    else
      fetchZonesLoop rest (setIdx arr count { Name := z.Name, ID := z.PersistentZoneID }) (count + 1)

/-- The filtered fresh list, as the spec describes it: entries without an
`'@'` in their persistent id, in service order. -/
def filteredZones (fresh : List RawZone) : List zoneInfo :=
  (fresh.filter (fun z => ! strContains z.PersistentZoneID "@")).map
    (fun z => { Name := z.Name, ID := z.PersistentZoneID })

/-- Result of one `fetchZones` call: the new `zonesArray`, the number of
network requests issued, and whether the configuration error was logged. -/
structure FetchZonesResult where
  zonesArray : List zoneInfo
  writes : Nat
  configErrorLogged : Bool
deriving DecidableEq

/-- Method `fetchZones` (platform.ts lines 126-160): if the configured URI
contains `"undefined"`, log the configuration error and leave the cache
untouched; otherwise issue one request and run the storing loop over the
response on top of the previous `zonesArray`. -/
def fetchZonesModel (uri : String) (prev : List zoneInfo)
    (fresh : List RawZone) : FetchZonesResult :=
  if strContains uri "undefined" then
    { zonesArray := prev, writes := 0, configErrorLogged := true }
  else
    { zonesArray := fetchZonesLoop fresh prev 0, writes := 1, configErrorLogged := false }

/-! ## Accessory reconciliation (`discoverDevices`, platform.ts lines 166-230) -/

/-- The host-registry accessory fields the reconciliation code reads:
its stable uuid and its display name. -/
structure AccessoryRec where
  UUID : String
  displayName : String
deriving DecidableEq

/-- The classification computed by one `discoverDevices` pass. -/
structure ReconcileResult where
  toCreate : List zoneInfo
  toKeep : List (AccessoryRec × zoneInfo)
  toRemove : List AccessoryRec
deriving DecidableEq

/-- The classification of `discoverDevices` (lines 171-229), parameterized
by the host's deterministic uuid derivation `g` (`api.hap.uuid.generate`):
a fresh zone whose derived uuid is found among the cached accessories is
kept (paired with that accessory), a fresh zone whose derived uuid is not
found is created, and a cached accessory matched by no fresh zone's
derived uuid is removed. -/
def reconcile (g : String → String) (accs : List AccessoryRec)
    (zones : List zoneInfo) : ReconcileResult :=
  { toCreate := zones.filter (fun z => (accs.find? (fun a => a.UUID == g z.ID)).isNone)
    toKeep := zones.filterMap (fun z =>
      (accs.find? (fun a => a.UUID == g z.ID)).map (fun a => (a, z)))
    toRemove := accs.filter (fun a => (zones.find? (fun z => g z.ID == a.UUID)).isNone) }

/-- The accessory registered for a newly created zone (line 203):
`new this.api.platformAccessory(zone.Name, uuid)`. -/
def mkAccessory (g : String → String) (z : zoneInfo) : AccessoryRec :=
  { UUID := g z.ID, displayName := z.Name }

/-- The registered accessory set after applying one pass's output: kept
accessories stay, created zones get new accessories, removed accessories
are unregistered. -/
def applyReconcile (g : String → String) (accs : List AccessoryRec)
    (zones : List zoneInfo) : List AccessoryRec :=
  (reconcile g accs zones).toKeep.map Prod.fst
    ++ (reconcile g accs zones).toCreate.map (mkAccessory g)

/-! ## Group propagation (`CasaTunesPlatformAccessory`, group revision in
platform.ts lines 301-343 (`setOn`) and 388-432 (`setVolume`)) -/

/-- One member descriptor of `zone.ZoneGroupInfo`. -/
structure ZoneGroupMember where
  zoneId : String
deriving DecidableEq

/-- The single-zone response fields read by the handlers: `Power`,
`Volume`, the stringified `Shared` flag, and the member list. -/
structure ZoneResponse where
  Power : Bool
  Volume : Int
  Shared : String
  ZoneGroupInfo : List ZoneGroupMember
deriving DecidableEq

/-- Modelled from the spec: the entries of the platform's cached
zone-lookup table consumed by the group loop via `getZonesArray()`.  The
revision of platform.ts that defines `getZonesArray` is not under `src/`;
per spec §4.3 the table maps a member's zone id to the derived uuid of
its bound accessory, matching the fields `ZoneId` and `UUID` the group
loop reads. -/
structure GZoneInfo where
  ZoneId : String
  UUID : String
deriving DecidableEq

/-- A host-registry accessory as seen by the group loop: its uuid, its
display name, and its Lightbulb service's cached `On` and `Brightness`
characteristics. -/
structure PAccessory where
  UUID : String
  displayName : String
  onChar : Bool
  brightnessChar : Int
deriving DecidableEq

/-- A JavaScript `TypeError` from dereferencing `undefined`. -/
inductive JsError where
  | typeError
deriving DecidableEq

/-- Applying `setCharacteristic` on the first accessory whose `UUID` matches `u`
(JavaScript `Array.prototype.find` returns the first match, which is then
mutated in place). -/
def setFirstBy (u : String) (f : PAccessory → PAccessory) :
    List PAccessory → List PAccessory
  | [] => []
  | a :: rest => if a.UUID == u then f a :: rest else a :: setFirstBy u f rest

/-- One iteration of the group loop (lines 318-335 / 405-423): look the
member's zone id up in the cached zones array, then look the resulting
uuid up among the cached accessories, and set the characteristic on the
accessory found.  A failed zone lookup throws a `TypeError` at
`info.UUID`; a failed accessory lookup skips the optional-chained
`setCharacteristic` but then throws a `TypeError` at
`accessory.displayName` in the debug log. -/
def reflectMember (zA : List GZoneInfo) (f : PAccessory → PAccessory)
    (memberId : String) (accs : List PAccessory) :
    Except JsError (List PAccessory) :=
  match zA.find? (fun zi => zi.ZoneId == memberId) with
  | none => .error .typeError
  | some info =>
    match accs.find? (fun a => a.UUID == info.UUID) with
    | none => .error .typeError
    | some _ => .ok (setFirstBy info.UUID f accs)

/-- The whole group loop: members processed in list order; an error stops
the loop and propagates. -/
def reflectMembers (zA : List GZoneInfo) (f : PAccessory → PAccessory) :
    List ZoneGroupMember → List PAccessory → Except JsError (List PAccessory)
  | [], accs => .ok accs
  | m :: rest, accs =>
    match reflectMember zA f m.zoneId accs with
    | .error e => .error e
    | .ok accs' => reflectMembers zA f rest accs'

/-- Result of one SET handler call (group revision): network requests
issued, the accessory cache afterwards, whether the HomeKit callback was
invoked, and whether the configuration error was logged. -/
structure SetResult where
  writes : Nat
  accessories : List PAccessory
  callbackCalled : Bool
  configErrorLogged : Bool
deriving DecidableEq

/-- Handler `setOn` (group revision, platform.ts lines 301-343): if the URI
contains `"undefined"`, log and return without calling the callback;
otherwise issue the single `?Power=` write, and if the response's
`Shared` stringifies to a string containing `"true"`, run the group loop
setting each member accessory's `On`; finally call `callback(null)`. -/
def setOnModel (uri zoneId : String) (value : Bool) (resp : ZoneResponse)
    (zA : List GZoneInfo) (accs : List PAccessory) :
    Except JsError SetResult :=
  if strContains uri "undefined" then
    .ok { writes := 0, accessories := accs, callbackCalled := false, configErrorLogged := true }
  else
    match (if strContains resp.Shared "true" then
            reflectMembers zA (fun a => { a with onChar := value }) resp.ZoneGroupInfo accs
          else .ok accs) with
    | .error e => .error e
    | .ok accs' =>
      .ok { writes := 1, accessories := accs', callbackCalled := true, configErrorLogged := false }

/-- Handler `setVolume` (group revision, platform.ts lines 388-432): same shape
as `setOn` with the `?Volume=` write and the `Brightness` characteristic. -/
def setVolumeModel (uri zoneId : String) (value : Int) (resp : ZoneResponse)
    (zA : List GZoneInfo) (accs : List PAccessory) :
    Except JsError SetResult :=
  if strContains uri "undefined" then
    .ok { writes := 0, accessories := accs, callbackCalled := false, configErrorLogged := true }
  else
    match (if strContains resp.Shared "true" then
            reflectMembers zA (fun a => { a with brightnessChar := value }) resp.ZoneGroupInfo accs
          else .ok accs) with
    | .error e => .error e
    | .ok accs' =>
      .ok { writes := 1, accessories := accs', callbackCalled := true, configErrorLogged := false }

/-- Whether one group member can be resolved by the loop: its zone id has
an entry in the cached zones array whose uuid some cached accessory
carries. -/
def memberResolvable (zA : List GZoneInfo) (accs : List PAccessory)
    (m : ZoneGroupMember) : Bool :=
  match zA.find? (fun zi => zi.ZoneId == m.zoneId) with
  | none => false
  | some info => (accs.find? (fun a => a.UUID == info.UUID)).isSome

/-- The member-reflection postcondition the fan-out claims are stated
with: the first accessory carrying uuid `u` exists and satisfies `Q`
(e.g. its cached characteristic equals the written value). -/
def foundSat (l : List PAccessory) (u : String) (Q : PAccessory → Prop) : Prop :=
  ∃ a, l.find? (fun x => x.UUID == u) = some a ∧ Q a

/-- Result of one GET handler call. -/
structure GetOnResult where
  writes : Nat
  value : Option Bool
  callbackCalled : Bool
  configErrorLogged : Bool
deriving DecidableEq

/-- Handler `getOn` (platformAccessory.ts lines 99-123): if the URI contains
`"undefined"`, log and return without calling the callback; otherwise
issue one read and deliver the response's `Power` via `callback(null, isOn)`. -/
def getOnModel (uri zoneId : String) (resp : ZoneResponse) : GetOnResult :=
  if strContains uri "undefined" then
    { writes := 0, value := none, callbackCalled := false, configErrorLogged := true }
  else
    { writes := 1, value := some resp.Power, callbackCalled := true, configErrorLogged := false }

/-- Result of one `getVolume` call. -/
structure GetVolResult where
  writes : Nat
  value : Option Int
  callbackCalled : Bool
  configErrorLogged : Bool
deriving DecidableEq

/-- Handler `getVolume` (platformAccessory.ts lines 151-173): like `getOn`, with
the response's `Volume`. -/
def getVolumeModel (uri zoneId : String) (resp : ZoneResponse) : GetVolResult :=
  if strContains uri "undefined" then
    { writes := 0, value := none, callbackCalled := false, configErrorLogged := true }
  else
    { writes := 1, value := some resp.Volume, callbackCalled := true, configErrorLogged := false }

/-- Result of one simple SET handler call (platformAccessory.ts). -/
structure SimpleSetResult where
  writes : Nat
  callbackCalled : Bool
  configErrorLogged : Bool
deriving DecidableEq

/-- Handler `setOn` (platformAccessory.ts lines 68-84): guard, one `?Power=`
write, `callback(null)`; no group handling and no cached state touched. -/
def setOnSimple (uri zoneId : String) (value : Bool) : SimpleSetResult :=
  if strContains uri "undefined" then
    { writes := 0, callbackCalled := false, configErrorLogged := true }
  else
    { writes := 1, callbackCalled := true, configErrorLogged := false }

/-- Handler `setVolume` (platformAccessory.ts lines 129-145): guard, one
`?Volume=` write, `callback(null)`. -/
def setVolumeSimple (uri zoneId : String) (value : Int) : SimpleSetResult :=
  if strContains uri "undefined" then
    { writes := 0, callbackCalled := false, configErrorLogged := true }
  else
    { writes := 1, callbackCalled := true, configErrorLogged := false }

/-! ## Helper lemmas -/

theorem setIdx_eq (arr : List zoneInfo) (count : Nat) (x : zoneInfo)
    (h : count ≤ arr.length) :
    setIdx arr count x = arr.take count ++ x :: arr.drop (count + 1) := by
  unfold setIdx
  by_cases hlt : count < arr.length
  · rw [if_pos hlt, List.set_eq_take_cons_drop x hlt]
  · have hc : count = arr.length := Nat.le_antisymm h (Nat.le_of_not_lt hlt)
    rw [if_neg hlt, hc, List.take_length, List.drop_eq_nil_of_le (by omega)]

theorem filteredZones_nil : filteredZones [] = [] := rfl

theorem filteredZones_cons_skip (z : RawZone) (rest : List RawZone)
    (hz : strContains z.PersistentZoneID "@" = true) :
    filteredZones (z :: rest) = filteredZones rest := by
  simp [filteredZones, List.filter_cons, hz]

theorem filteredZones_cons_keep (z : RawZone) (rest : List RawZone)
    (hz : strContains z.PersistentZoneID "@" = false) :
    filteredZones (z :: rest)
      = { Name := z.Name, ID := z.PersistentZoneID } :: filteredZones rest := by
  simp [filteredZones, List.filter_cons, hz]

/-- Writing at the seam of a decomposed array: storing `x` at index
`A.length` of `A ++ B` overwrites the head of `B` (or appends when `B` is
empty). -/
theorem setIdx_append (A B : List zoneInfo) (x : zoneInfo) :
    setIdx (A ++ B) A.length x = (A ++ [x]) ++ B.drop 1 := by
  cases B with
  | nil => simp [setIdx]
  | cons b bs =>
    have hlt : A.length < (A ++ b :: bs).length := by simp
    have hset : (A ++ b :: bs).set A.length x = A ++ x :: bs := by
      rw [List.set_eq_take_cons_drop x hlt, List.take_left]
      have hdrop : (A ++ b :: bs).drop (A.length + 1) = bs := by
        rw [← List.drop_drop, List.drop_left]
        rfl
      rw [hdrop]
    simp [setIdx, hlt, hset]

/-- The storing loop of `fetchZones`, started at the seam of a decomposed
previous array, overwrites the old entries slot by slot with the filtered
fresh entries and leaves whatever lies beyond the fresh count untouched. -/
theorem fetchZonesLoop_eq (fresh : List RawZone) :
    ∀ A B : List zoneInfo,
      fetchZonesLoop fresh (A ++ B) A.length
        = A ++ filteredZones fresh ++ B.drop (filteredZones fresh).length := by
  induction fresh with
  | nil =>
    intro A B
    simp [fetchZonesLoop, filteredZones_nil]
  | cons z rest ih =>
    intro A B
    by_cases hz : strContains z.PersistentZoneID "@" = true
    · rw [show fetchZonesLoop (z :: rest) (A ++ B) A.length
          = fetchZonesLoop rest (A ++ B) A.length from by
        simp [fetchZonesLoop, hz], filteredZones_cons_skip z rest hz]
      exact ih A B
    · have hz' : strContains z.PersistentZoneID "@" = false := by simpa using hz
      rw [show fetchZonesLoop (z :: rest) (A ++ B) A.length
          = fetchZonesLoop rest
              (setIdx (A ++ B) A.length { Name := z.Name, ID := z.PersistentZoneID })
              (A.length + 1) from by
        simp [fetchZonesLoop, hz'], filteredZones_cons_keep z rest hz',
        setIdx_append A B { Name := z.Name, ID := z.PersistentZoneID }]
      have hstep := ih (A ++ [({ Name := z.Name, ID := z.PersistentZoneID } : zoneInfo)]) (B.drop 1)
      rw [show (A ++ [({ Name := z.Name, ID := z.PersistentZoneID } : zoneInfo)]).length
          = A.length + 1 from by simp] at hstep
      rw [hstep, List.drop_drop]
      simp [Nat.add_comm]

/-- Specialization to a run of the loop as `fetchZones` issues it
(`count = 0`): the previous array's first `(filteredZones fresh).length`
entries are overwritten, its tail beyond them survives. -/
theorem fetchZonesLoop_zero (fresh : List RawZone) (prev : List zoneInfo) :
    fetchZonesLoop fresh prev 0
      = filteredZones fresh ++ prev.drop (filteredZones fresh).length := by
  have h := fetchZonesLoop_eq fresh [] prev
  simpa using h

/-! ## Claim C3 -/

/-- C3: for every input zone list, `fetchZones` excludes exactly the
entries whose persistent zone id contains `'@'`, includes all the others,
and preserves their relative service order: starting from an empty cache,
the stored array is the in-order filter-and-project of the response. -/
theorem C3_fetchZones_filter (uri : String) (fresh : List RawZone)
    (huri : strContains uri "undefined" = false) :
    (fetchZonesModel uri [] fresh).zonesArray
      = (fresh.filter (fun z => ! strContains z.PersistentZoneID "@")).map
          (fun z => { Name := z.Name, ID := z.PersistentZoneID }) := by
  have h := fetchZonesLoop_zero fresh []
  simp only [fetchZonesModel, huri, Bool.false_eq_true, if_false, h,
    List.drop_nil, List.append_nil]
  rfl

/-- Witness for C3 at the spec's own scenario
`[{id:"z1@air"}, {id:"z2"}, {id:"z3"}]`. -/
theorem C3_fetchZones_filter_witness :
    strContains "http://192.168.1.10/api/v1" "undefined" = false ∧
    (fetchZonesModel "http://192.168.1.10/api/v1" []
        [{ Name := "Air", PersistentZoneID := "z1@air" },
         { Name := "Kitchen", PersistentZoneID := "z2" },
         { Name := "Patio", PersistentZoneID := "z3" }]).zonesArray
      = [{ Name := "Kitchen", ID := "z2" }, { Name := "Patio", ID := "z3" }] :=
  ⟨by decide, by
    rw [C3_fetchZones_filter "http://192.168.1.10/api/v1" _ (by decide)]
    decide⟩

/-! ## Claim C4 -/

/-- C4 counterexample: the cache is NOT replaced wholesale.  Two
consecutive successful fetches; the second (filtered) response no longer
contains zone `z2`, yet the `z2` record written by the first fetch is
still in the cached array afterwards, because the storing loop only
overwrites the slots it needs. -/
theorem C4_counterexample :
    (fetchZonesModel "http://192.168.1.10/api/v1"
        (fetchZonesModel "http://192.168.1.10/api/v1" []
          [{ Name := "Kitchen", PersistentZoneID := "z1" },
           { Name := "Den", PersistentZoneID := "z2" }]).zonesArray
        [{ Name := "Kitchen", PersistentZoneID := "z1" }]).zonesArray
      ≠ filteredZones [{ Name := "Kitchen", PersistentZoneID := "z1" }] ∧
    ({ Name := "Den", ID := "z2" } : zoneInfo) ∈
      (fetchZonesModel "http://192.168.1.10/api/v1"
        (fetchZonesModel "http://192.168.1.10/api/v1" []
          [{ Name := "Kitchen", PersistentZoneID := "z1" },
           { Name := "Den", PersistentZoneID := "z2" }]).zonesArray
        [{ Name := "Kitchen", PersistentZoneID := "z1" }]).zonesArray ∧
    ({ Name := "Den", ID := "z2" } : zoneInfo) ∉
      filteredZones [{ Name := "Kitchen", PersistentZoneID := "z1" }] := by
  refine ⟨by decide, by decide, by decide⟩

/-- C4 amended: after a successful `fetchZones` call the cached array is
the filtered fresh list followed by the previous cache's entries beyond
the fresh count; it equals exactly the filtered fresh list only when the
previous cache is no longer than the filtered fresh list. -/
theorem C4_fetchZones_overwrites (uri : String) (prev : List zoneInfo)
    (fresh : List RawZone) (huri : strContains uri "undefined" = false) :
    (fetchZonesModel uri prev fresh).zonesArray
      = filteredZones fresh ++ prev.drop (filteredZones fresh).length ∧
    (prev.length ≤ (filteredZones fresh).length →
      (fetchZonesModel uri prev fresh).zonesArray = filteredZones fresh) := by
  have h : (fetchZonesModel uri prev fresh).zonesArray
      = filteredZones fresh ++ prev.drop (filteredZones fresh).length := by
    simp only [fetchZonesModel, huri, Bool.false_eq_true, if_false]
    exact fetchZonesLoop_zero fresh prev
  refine ⟨h, fun hle => ?_⟩
  rw [h, List.drop_eq_nil_of_le hle, List.append_nil]

/-- Witness for C4's amended statement: a shrinking second fetch leaves
the first fetch's tail in place. -/
theorem C4_fetchZones_overwrites_witness :
    strContains "http://192.168.1.10/api/v1" "undefined" = false ∧
    (fetchZonesModel "http://192.168.1.10/api/v1"
        [{ Name := "Kitchen", ID := "z1" }, { Name := "Den", ID := "z2" }]
        [{ Name := "Kitchen", PersistentZoneID := "z1" }]).zonesArray
      = filteredZones [{ Name := "Kitchen", PersistentZoneID := "z1" }]
          ++ [({ Name := "Den", ID := "z2" } : zoneInfo)] :=
  ⟨by decide, by
    have h := (C4_fetchZones_overwrites "http://192.168.1.10/api/v1"
      [{ Name := "Kitchen", ID := "z1" }, { Name := "Den", ID := "z2" }]
      [{ Name := "Kitchen", PersistentZoneID := "z1" }] (by decide)).1
    rw [h]; decide⟩

/-! ## Claim C6 -/

/-- C6 counterexample: `"My Matrix: 7"` does not carry the `"Matrix: "`
prefix at offset zero, so the claim says it is left unchanged; the code's
`includes` check still fires and chops the first 8 characters. -/
theorem C6_counterexample :
    strStarts "My Matrix: 7" "Matrix: " = false ∧
    trimModel "My Matrix: 7" ≠ "My Matrix: 7" := by
  refine ⟨by decide, by decide⟩

/-- C6 amended: the normalization drops the first 8 characters of the
model exactly when `"Matrix: "` occurs anywhere in it (`includes`), so it
removes the literal prefix whenever the prefix sits at offset zero and
leaves strings without any `"Matrix: "` occurrence unchanged; in
particular `"Matrix: Model7"` normalizes to `"Model7"` and `"Model7"` is
unchanged. -/
theorem C6_trimModel_amended (m : String) :
    (strStarts m "Matrix: " = true → "Matrix: ".data ++ (trimModel m).data = m.data) ∧
    (strContains m "Matrix: " = false → trimModel m = m) ∧
    (strContains m "Matrix: " = true → (trimModel m).data = m.data.drop 8) ∧
    trimModel "Matrix: Model7" = "Model7" ∧ trimModel "Model7" = "Model7" := by
  refine ⟨fun hpre => ?_, fun hno => ?_, fun hyes => ?_, by decide, by decide⟩
  · obtain ⟨t, ht⟩ := (listStarts_iff "Matrix: ".data m.data).mp hpre
    have hc : strContains m "Matrix: " = true := strContains_of_strStarts m _ hpre
    simp only [trimModel, hc, if_true, ht]
    rw [List.drop_left]
  · simp [trimModel, hno]
  · simp only [trimModel, hyes, if_true]
    rfl

/-- Witness for C6's amended statement at `"Matrix: Model7"`. -/
theorem C6_trimModel_amended_witness :
    strStarts "Matrix: Model7" "Matrix: " = true ∧
    "Matrix: ".data ++ (trimModel "Matrix: Model7").data = "Matrix: Model7".data :=
  ⟨by decide, (C6_trimModel_amended "Matrix: Model7").1 (by decide)⟩

/-! ## Claim C9 -/

/-- C9: whenever the configured URI contains the substring `"undefined"`,
every operation — `fetchZones`, `fetchPlatformInfo`, the group-revision
SET handlers, the GET handlers, and the simple SET handlers — logs the
configuration error, issues no network request, and changes no cached
zone or accessory state. -/
theorem C9_config_error_short_circuits (uri : String) (prevInfo : PlatformInfo)
    (prevZones : List zoneInfo) (fresh : List RawZone) (sysResp : SystemInfo)
    (zid : String) (bv : Bool) (iv : Int) (resp : ZoneResponse)
    (zA : List GZoneInfo) (accs : List PAccessory)
    (h : strContains uri "undefined" = true) :
    fetchZonesModel uri prevZones fresh
      = { zonesArray := prevZones, writes := 0, configErrorLogged := true } ∧
    fetchPlatformInfoModel uri prevInfo sysResp
      = { info := prevInfo, writes := 0, configErrorLogged := true } ∧
    setOnModel uri zid bv resp zA accs
      = .ok { writes := 0, accessories := accs, callbackCalled := false,
              configErrorLogged := true } ∧
    setVolumeModel uri zid iv resp zA accs
      = .ok { writes := 0, accessories := accs, callbackCalled := false,
              configErrorLogged := true } ∧
    getOnModel uri zid resp
      = { writes := 0, value := none, callbackCalled := false, configErrorLogged := true } ∧
    getVolumeModel uri zid resp
      = { writes := 0, value := none, callbackCalled := false, configErrorLogged := true } ∧
    setOnSimple uri zid bv
      = { writes := 0, callbackCalled := false, configErrorLogged := true } ∧
    setVolumeSimple uri zid iv
      = { writes := 0, callbackCalled := false, configErrorLogged := true } := by
  refine ⟨?_, ?_, ?_, ?_, ?_, ?_, ?_, ?_⟩ <;>
    simp [fetchZonesModel, fetchPlatformInfoModel, setOnModel, setVolumeModel,
      getOnModel, getVolumeModel, setOnSimple, setVolumeSimple, h]

/-- Witness for C9 with the literal placeholder URI
`"http://undefined/api/v1"`. -/
theorem C9_config_error_short_circuits_witness :
    strContains "http://undefined/api/v1" "undefined" = true ∧
    fetchZonesModel "http://undefined/api/v1" [] []
      = { zonesArray := [], writes := 0, configErrorLogged := true } :=
  ⟨by decide,
    (C9_config_error_short_circuits "http://undefined/api/v1"
      { Manufacturer := "", Model := "", SoftwareRevision := "" } [] []
      { AppName := "", MatrixTitle := "", CasaTunesVersion := "" } "z1" true 40
      { Power := false, Volume := 0, Shared := "false", ZoneGroupInfo := [] } [] []
      (by decide)).1⟩

/-! ## Claim C10 -/

/-- C10: whenever the configured URI contains the substring `"undefined"`,
none of the characteristic handlers (`setOn`, `getOn`, `setVolume`,
`getVolume`, in both revisions) ever invokes its HomeKit callback — no
success value and no error is delivered for the request. -/
theorem C10_config_error_no_callback (uri zid : String) (bv : Bool) (iv : Int)
    (resp : ZoneResponse) (zA : List GZoneInfo) (accs : List PAccessory)
    (h : strContains uri "undefined" = true) :
    (∀ r, setOnModel uri zid bv resp zA accs = .ok r → r.callbackCalled = false) ∧
    (∀ r, setVolumeModel uri zid iv resp zA accs = .ok r → r.callbackCalled = false) ∧
    (getOnModel uri zid resp).callbackCalled = false ∧
    (getOnModel uri zid resp).value = none ∧
    (getVolumeModel uri zid resp).callbackCalled = false ∧
    (getVolumeModel uri zid resp).value = none ∧
    (setOnSimple uri zid bv).callbackCalled = false ∧
    (setVolumeSimple uri zid iv).callbackCalled = false := by
  refine ⟨fun r hr => ?_, fun r hr => ?_, ?_, ?_, ?_, ?_, ?_, ?_⟩
  · simp [setOnModel, h] at hr
    simp [← hr]
  · simp [setVolumeModel, h] at hr
    simp [← hr]
  all_goals simp [getOnModel, getVolumeModel, setOnSimple, setVolumeSimple, h]

/-- Witness for C10 at the literal URI `"undefined"` (an unset `config.uri`
stringifies to exactly this). -/
theorem C10_config_error_no_callback_witness :
    strContains "undefined" "undefined" = true ∧
    (getOnModel "undefined" "z1"
      { Power := true, Volume := 25, Shared := "false", ZoneGroupInfo := [] }).callbackCalled
      = false :=
  ⟨by decide,
    (C10_config_error_no_callback "undefined" "z1" true 25
      { Power := true, Volume := 25, Shared := "false", ZoneGroupInfo := [] } [] []
      (by decide)).2.2.1⟩

/-! ## Claim C2 -/

/-- C2: one `discoverDevices` pass classifies by derived uuid — a fresh
zone whose derived uuid matches a cached accessory is kept (paired with
that accessory), a fresh zone with no matching uuid is created, a cached
accessory matched by no fresh zone is removed; and on the spec scenario
(previous accessories for z2 and z9, fresh zones z2 and z3) the pass
yields `toCreate = [z3]`, `toKeep = [(acc(z2), z2)]`,
`toRemove = [acc(z9)]`. -/
theorem C2_reconcile_classifies (g : String → String) (accs : List AccessoryRec)
    (zones : List zoneInfo) :
    (∀ z ∈ zones, (∃ a ∈ accs, a.UUID = g z.ID) →
      ∃ a, a ∈ accs ∧ a.UUID = g z.ID ∧ (a, z) ∈ (reconcile g accs zones).toKeep) ∧
    (∀ z ∈ zones, (∀ a ∈ accs, a.UUID ≠ g z.ID) →
      z ∈ (reconcile g accs zones).toCreate) ∧
    (∀ a ∈ accs, (∀ z ∈ zones, g z.ID ≠ a.UUID) →
      a ∈ (reconcile g accs zones).toRemove) ∧
    reconcile (fun s => "uuid-" ++ s)
      [{ UUID := "uuid-z2", displayName := "Kitchen" },
       { UUID := "uuid-z9", displayName := "Den" }]
      [{ Name := "Kitchen", ID := "z2" }, { Name := "Patio", ID := "z3" }]
    = { toCreate := [{ Name := "Patio", ID := "z3" }],
        toKeep := [({ UUID := "uuid-z2", displayName := "Kitchen" },
                    { Name := "Kitchen", ID := "z2" })],
        toRemove := [{ UUID := "uuid-z9", displayName := "Den" }] } := by
  refine ⟨?_, ?_, ?_, by decide⟩
  · rintro z hz ⟨a, ha, hu⟩
    have hsome : (accs.find? (fun a0 => a0.UUID == g z.ID)).isSome :=
      List.find?_isSome.mpr ⟨a, ha, by simp [hu]⟩
    obtain ⟨a0, ha0⟩ := Option.isSome_iff_exists.mp hsome
    refine ⟨a0, List.mem_of_find?_eq_some ha0, by simpa using List.find?_some ha0, ?_⟩
    simp only [reconcile]
    exact List.mem_filterMap.mpr ⟨z, hz, by rw [ha0]; rfl⟩
  · intro z hz hnone
    have hn : accs.find? (fun a0 => a0.UUID == g z.ID) = none := by
      rw [List.find?_eq_none]
      intro a ha
      simp [hnone a ha]
    simp only [reconcile]
    exact List.mem_filter.mpr ⟨hz, by rw [hn]; rfl⟩
  · intro a ha hnone
    have hn : zones.find? (fun z => g z.ID == a.UUID) = none := by
      rw [List.find?_eq_none]
      intro z hzz
      simp [hnone z hzz]
    simp only [reconcile]
    exact List.mem_filter.mpr ⟨ha, by rw [hn]; rfl⟩

/-- Witness for C2: a zone with no matching cached accessory lands in
`toCreate`. -/
theorem C2_reconcile_classifies_witness :
    ({ Name := "Patio", ID := "z3" } : zoneInfo)
      ∈ (reconcile (fun s => "uuid-" ++ s)
          [{ UUID := "uuid-z9", displayName := "Den" }]
          [{ Name := "Patio", ID := "z3" }]).toCreate :=
  (C2_reconcile_classifies (fun s => "uuid-" ++ s)
      [{ UUID := "uuid-z9", displayName := "Den" }]
      [{ Name := "Patio", ID := "z3" }]).2.1
    { Name := "Patio", ID := "z3" } (by decide) (by decide)

/-! ## Claim C8 -/

/-- C8: in one pass, the derived uuids of the zones to create and the
uuids of the accessories to remove are disjoint — nothing is both created
and removed. -/
theorem C8_create_remove_disjoint (g : String → String) (accs : List AccessoryRec)
    (zones : List zoneInfo) :
    ∀ u, u ∈ (reconcile g accs zones).toCreate.map (fun z => g z.ID) →
      u ∉ (reconcile g accs zones).toRemove.map (fun a => a.UUID) := by
  intro u hc hr
  simp only [reconcile] at hc hr
  obtain ⟨z, hzc, hzu⟩ := List.mem_map.mp hc
  obtain ⟨a, har, hau⟩ := List.mem_map.mp hr
  have hz : z ∈ zones := (List.mem_filter.mp hzc).1
  have hisnone : ((zones.find? (fun z0 => g z0.ID == a.UUID)).isNone : Bool) = true :=
    (List.mem_filter.mp har).2
  have hnone := List.find?_eq_none.mp (Option.isNone_iff_eq_none.mp hisnone) z hz
  apply hnone
  simp [hzu, hau]

/-- Witness for C8: the uuid derived for a to-create zone is absent from
the to-remove uuids. -/
theorem C8_create_remove_disjoint_witness :
    "uuid-z3" ∈ (reconcile (fun s => "uuid-" ++ s)
        [{ UUID := "uuid-z9", displayName := "Den" }]
        [{ Name := "Patio", ID := "z3" }]).toCreate.map (fun z => "uuid-" ++ z.ID) ∧
    "uuid-z3" ∉ (reconcile (fun s => "uuid-" ++ s)
        [{ UUID := "uuid-z9", displayName := "Den" }]
        [{ Name := "Patio", ID := "z3" }]).toRemove.map (fun a => a.UUID) :=
  ⟨by decide,
    C8_create_remove_disjoint (fun s => "uuid-" ++ s)
      [{ UUID := "uuid-z9", displayName := "Den" }]
      [{ Name := "Patio", ID := "z3" }] "uuid-z3" (by decide)⟩

/-! ## Claim C7 -/

/-- After applying one pass's output, every fresh zone's derived uuid is
carried by some registered accessory. -/
theorem applyReconcile_covers (g : String → String) (accs : List AccessoryRec)
    (zones : List zoneInfo) :
    ∀ z ∈ zones, ∃ a, a ∈ applyReconcile g accs zones ∧ (a.UUID == g z.ID) = true := by
  intro z hz
  simp only [applyReconcile, reconcile]
  cases hfind : accs.find? (fun a => a.UUID == g z.ID) with
  | some a =>
    refine ⟨a, List.mem_append_left _ ?_, by simpa using List.find?_some hfind⟩
    exact List.mem_map.mpr ⟨(a, z), List.mem_filterMap.mpr ⟨z, hz, by rw [hfind]; rfl⟩, rfl⟩
  | none =>
    refine ⟨mkAccessory g z, List.mem_append_right _ ?_, by simp [mkAccessory]⟩
    exact List.mem_map.mpr ⟨z, List.mem_filter.mpr ⟨hz, by rw [hfind]; rfl⟩, rfl⟩

/-- After applying one pass's output, every registered accessory's uuid is
derived from some fresh zone. -/
theorem applyReconcile_sound (g : String → String) (accs : List AccessoryRec)
    (zones : List zoneInfo) :
    ∀ a ∈ applyReconcile g accs zones, ∃ z, z ∈ zones ∧ (g z.ID == a.UUID) = true := by
  intro a ha
  simp only [applyReconcile, reconcile] at ha
  rcases List.mem_append.mp ha with hk | hc
  · obtain ⟨p, hp, hpa⟩ := List.mem_map.mp hk
    obtain ⟨z, hzz, hf⟩ := List.mem_filterMap.mp hp
    obtain ⟨a0, ha0, hpz⟩ := Option.map_eq_some'.mp hf
    have hpred := List.find?_some ha0
    have ha0a : a0 = a := by
      have : ((a0, z) : AccessoryRec × zoneInfo).1 = p.1 := by rw [hpz]
      simpa [hpa] using this
    refine ⟨z, hzz, ?_⟩
    rw [← ha0a]
    simp only [beq_iff_eq] at hpred ⊢
    exact hpred.symm
  · obtain ⟨z, hzc, hza⟩ := List.mem_map.mp hc
    have hz : z ∈ zones := (List.mem_filter.mp hzc).1
    refine ⟨z, hz, ?_⟩
    rw [← hza]
    simp [mkAccessory]

/-- C7: reconciliation is idempotent — the classification is a function
of its inputs, and after applying one pass's output a second pass over
the same fresh zones creates nothing, removes nothing, and keeps a
pairing for every fresh zone. -/
theorem C7_reconcile_idempotent (g : String → String) (accs : List AccessoryRec)
    (zones : List zoneInfo) :
    reconcile g accs zones = reconcile g accs zones ∧
    (reconcile g (applyReconcile g accs zones) zones).toCreate = [] ∧
    (reconcile g (applyReconcile g accs zones) zones).toRemove = [] ∧
    ∀ z ∈ zones, ∃ a, (a, z) ∈ (reconcile g (applyReconcile g accs zones) zones).toKeep := by
  refine ⟨rfl, ?_, ?_, ?_⟩
  · simp only [reconcile]
    rw [List.filter_eq_nil_iff]
    intro z hz
    obtain ⟨a, ha, hpred⟩ := applyReconcile_covers g accs zones z hz
    have hsome : ((applyReconcile g accs zones).find? (fun a0 => a0.UUID == g z.ID)).isSome :=
      List.find?_isSome.mpr ⟨a, ha, hpred⟩
    intro hno
    rw [Option.isNone_iff_eq_none.mp hno] at hsome
    simp at hsome
  · simp only [reconcile]
    rw [List.filter_eq_nil_iff]
    intro a ha
    obtain ⟨z, hz, hpred⟩ := applyReconcile_sound g accs zones a ha
    have hsome : (zones.find? (fun z0 => g z0.ID == a.UUID)).isSome :=
      List.find?_isSome.mpr ⟨z, hz, hpred⟩
    intro hno
    rw [Option.isNone_iff_eq_none.mp hno] at hsome
    simp at hsome
  · intro z hz
    obtain ⟨a, ha, hpred⟩ := applyReconcile_covers g accs zones z hz
    have hsome : ((applyReconcile g accs zones).find? (fun a0 => a0.UUID == g z.ID)).isSome :=
      List.find?_isSome.mpr ⟨a, ha, hpred⟩
    obtain ⟨a0, ha0⟩ := Option.isSome_iff_exists.mp hsome
    refine ⟨a0, ?_⟩
    simp only [reconcile]
    exact List.mem_filterMap.mpr ⟨z, hz, by rw [ha0]; rfl⟩

/-- Witness for C7: after applying a pass that created z2's accessory, a
second pass keeps z2. -/
theorem C7_reconcile_idempotent_witness :
    ∃ a, (a, ({ Name := "Kitchen", ID := "z2" } : zoneInfo)) ∈
      (reconcile (fun s => "uuid-" ++ s)
        (applyReconcile (fun s => "uuid-" ++ s) [] [{ Name := "Kitchen", ID := "z2" }])
        [{ Name := "Kitchen", ID := "z2" }]).toKeep :=
  (C7_reconcile_idempotent (fun s => "uuid-" ++ s) []
    [{ Name := "Kitchen", ID := "z2" }]).2.2.2 { Name := "Kitchen", ID := "z2" } (by decide)

/-! ## Group-propagation lemmas -/

theorem find?_cons_pos {α : Type} (p : α → Bool) (a : α) (l : List α)
    (h : p a = true) : List.find? p (a :: l) = some a :=
  List.find?_cons_of_pos l h

theorem find?_cons_neg {α : Type} (p : α → Bool) (a : α) (l : List α)
    (h : ¬ p a = true) : List.find? p (a :: l) = List.find? p l :=
  List.find?_cons_of_neg l h

theorem reflectMember_none_zone (zA : List GZoneInfo) (f : PAccessory → PAccessory)
    (mid : String) (accs : List PAccessory)
    (hz : zA.find? (fun zi => zi.ZoneId == mid) = none) :
    reflectMember zA f mid accs = .error .typeError := by
  unfold reflectMember
  rw [hz]

theorem reflectMember_none_acc (zA : List GZoneInfo) (f : PAccessory → PAccessory)
    (mid : String) (accs : List PAccessory) (info : GZoneInfo)
    (hz : zA.find? (fun zi => zi.ZoneId == mid) = some info)
    (hf : accs.find? (fun a => a.UUID == info.UUID) = none) :
    reflectMember zA f mid accs = .error .typeError := by
  simp only [reflectMember, hz, hf]

theorem reflectMember_some (zA : List GZoneInfo) (f : PAccessory → PAccessory)
    (mid : String) (accs : List PAccessory) (info : GZoneInfo) (a0 : PAccessory)
    (hz : zA.find? (fun zi => zi.ZoneId == mid) = some info)
    (hf : accs.find? (fun a => a.UUID == info.UUID) = some a0) :
    reflectMember zA f mid accs = .ok (setFirstBy info.UUID f accs) := by
  simp only [reflectMember, hz, hf]

theorem reflectMembers_nil (zA : List GZoneInfo) (f : PAccessory → PAccessory)
    (accs : List PAccessory) : reflectMembers zA f [] accs = .ok accs := rfl

theorem reflectMembers_cons_ok (zA : List GZoneInfo) (f : PAccessory → PAccessory)
    (m : ZoneGroupMember) (rest : List ZoneGroupMember) (accs accs1 : List PAccessory)
    (h : reflectMember zA f m.zoneId accs = .ok accs1) :
    reflectMembers zA f (m :: rest) accs = reflectMembers zA f rest accs1 := by
  have h0 : reflectMembers zA f (m :: rest) accs
      = match reflectMember zA f m.zoneId accs with
        | .error e => .error e
        | .ok a1 => reflectMembers zA f rest a1 := rfl
  rw [h0, h]

theorem setFirstBy_map_uuid (u : String) (f : PAccessory → PAccessory)
    (hU : ∀ a, (f a).UUID = a.UUID) (l : List PAccessory) :
    (setFirstBy u f l).map PAccessory.UUID = l.map PAccessory.UUID := by
  induction l with
  | nil => rfl
  | cons a rest ih =>
    by_cases h : (a.UUID == u) = true
    · simp [setFirstBy, h, hU a]
    · simp [setFirstBy, h, ih]

theorem find?_uuid_isSome_congr (u : String) :
    ∀ l1 l2 : List PAccessory, l1.map PAccessory.UUID = l2.map PAccessory.UUID →
      (l1.find? (fun x => x.UUID == u)).isSome = (l2.find? (fun x => x.UUID == u)).isSome := by
  intro l1
  induction l1 with
  | nil =>
    intro l2 h
    cases l2 with
    | nil => rfl
    | cons b bs => simp at h
  | cons a as ih =>
    intro l2 h
    cases l2 with
    | nil => simp at h
    | cons b bs =>
      simp only [List.map_cons, List.cons.injEq] at h
      obtain ⟨hab, hrest⟩ := h
      by_cases hu : (a.UUID == u) = true
      · have hbu : (b.UUID == u) = true := by rw [← hab]; exact hu
        rw [find?_cons_pos (fun x => x.UUID == u) a as hu,
          find?_cons_pos (fun x => x.UUID == u) b bs hbu]
        rfl
      · have hbu : ¬ (b.UUID == u) = true := by rw [← hab]; exact hu
        rw [find?_cons_neg (fun x => x.UUID == u) a as hu,
          find?_cons_neg (fun x => x.UUID == u) b bs hbu]
        exact ih bs hrest

theorem memberResolvable_congr (zA : List GZoneInfo) (m : ZoneGroupMember)
    (l1 l2 : List PAccessory) (h : l1.map PAccessory.UUID = l2.map PAccessory.UUID) :
    memberResolvable zA l1 m = memberResolvable zA l2 m := by
  unfold memberResolvable
  cases zA.find? (fun zi => zi.ZoneId == m.zoneId) with
  | none => rfl
  | some info => exact find?_uuid_isSome_congr info.UUID l1 l2 h

theorem setFirstBy_foundSat_self (u : String) (f : PAccessory → PAccessory)
    (Q : PAccessory → Prop) (hU : ∀ a, (f a).UUID = a.UUID) (hQ : ∀ a, Q (f a))
    (l : List PAccessory) (h : (l.find? (fun x => x.UUID == u)).isSome = true) :
    foundSat (setFirstBy u f l) u Q := by
  induction l with
  | nil => simp at h
  | cons a rest ih =>
    by_cases hu : (a.UUID == u) = true
    · refine ⟨f a, ?_, hQ a⟩
      have hfu : ((f a).UUID == u) = true := by rw [hU a]; exact hu
      rw [show setFirstBy u f (a :: rest) = f a :: rest from by simp [setFirstBy, hu]]
      exact find?_cons_pos (fun x => x.UUID == u) (f a) rest hfu
    · rw [find?_cons_neg (fun x => x.UUID == u) a rest hu] at h
      obtain ⟨a', ha', hq⟩ := ih h
      refine ⟨a', ?_, hq⟩
      rw [show setFirstBy u f (a :: rest) = a :: setFirstBy u f rest from by
        simp [setFirstBy, hu]]
      rw [find?_cons_neg (fun x => x.UUID == u) a (setFirstBy u f rest) hu]
      exact ha'

theorem setFirstBy_foundSat_mono (u u' : String) (f : PAccessory → PAccessory)
    (Q : PAccessory → Prop) (hU : ∀ a, (f a).UUID = a.UUID) (hQ : ∀ a, Q (f a))
    (l : List PAccessory) (h : foundSat l u' Q) :
    foundSat (setFirstBy u f l) u' Q := by
  induction l with
  | nil =>
    obtain ⟨a, ha, _⟩ := h
    simp at ha
  | cons a rest ih =>
    by_cases hu : (a.UUID == u) = true
    · rw [show setFirstBy u f (a :: rest) = f a :: rest from by simp [setFirstBy, hu]]
      by_cases hu' : (a.UUID == u') = true
      · have hfu' : ((f a).UUID == u') = true := by rw [hU a]; exact hu'
        exact ⟨f a, find?_cons_pos (fun x => x.UUID == u') (f a) rest hfu', hQ a⟩
      · obtain ⟨b, hb, hqb⟩ := h
        rw [find?_cons_neg (fun x => x.UUID == u') a rest hu'] at hb
        have hfu' : ¬ ((f a).UUID == u') = true := by rw [hU a]; exact hu'
        exact ⟨b, by
          rw [find?_cons_neg (fun x => x.UUID == u') (f a) rest hfu']
          exact hb, hqb⟩
    · rw [show setFirstBy u f (a :: rest) = a :: setFirstBy u f rest from by
        simp [setFirstBy, hu]]
      by_cases hu' : (a.UUID == u') = true
      · obtain ⟨b, hb, hqb⟩ := h
        rw [find?_cons_pos (fun x => x.UUID == u') a rest hu'] at hb
        cases hb
        exact ⟨a, find?_cons_pos (fun x => x.UUID == u') a (setFirstBy u f rest) hu', hqb⟩
      · obtain ⟨b, hb, hqb⟩ := h
        rw [find?_cons_neg (fun x => x.UUID == u') a rest hu'] at hb
        obtain ⟨b', hb', hqb'⟩ := ih ⟨b, hb, hqb⟩
        exact ⟨b', by
          rw [find?_cons_neg (fun x => x.UUID == u') a (setFirstBy u f rest) hu']
          exact hb', hqb'⟩

theorem reflectMember_ok_of_resolvable (zA : List GZoneInfo)
    (f : PAccessory → PAccessory) (m : ZoneGroupMember) (accs : List PAccessory)
    (h : memberResolvable zA accs m = true) :
    ∃ info, zA.find? (fun zi => zi.ZoneId == m.zoneId) = some info ∧
      (accs.find? (fun a => a.UUID == info.UUID)).isSome = true ∧
      reflectMember zA f m.zoneId accs = .ok (setFirstBy info.UUID f accs) := by
  unfold memberResolvable at h
  cases hz : zA.find? (fun zi => zi.ZoneId == m.zoneId) with
  | none => rw [hz] at h; simp at h
  | some info =>
    rw [hz] at h
    obtain ⟨a0, ha0⟩ := Option.isSome_iff_exists.mp h
    exact ⟨info, rfl, h, reflectMember_some zA f m.zoneId accs info a0 hz ha0⟩

theorem reflectMember_ok_inv (zA : List GZoneInfo) (f : PAccessory → PAccessory)
    (mid : String) (accs accs1 : List PAccessory)
    (h : reflectMember zA f mid accs = .ok accs1) :
    ∃ info, zA.find? (fun zi => zi.ZoneId == mid) = some info ∧
      accs1 = setFirstBy info.UUID f accs := by
  cases hz : zA.find? (fun zi => zi.ZoneId == mid) with
  | none =>
    rw [reflectMember_none_zone zA f mid accs hz] at h
    simp at h
  | some info =>
    cases hf : accs.find? (fun a => a.UUID == info.UUID) with
    | none =>
      rw [reflectMember_none_acc zA f mid accs info hz hf] at h
      simp at h
    | some a0 =>
      rw [reflectMember_some zA f mid accs info a0 hz hf] at h
      simp only [Except.ok.injEq] at h
      exact ⟨info, rfl, h.symm⟩

theorem reflectMembers_foundSat_mono (zA : List GZoneInfo)
    (f : PAccessory → PAccessory) (Q : PAccessory → Prop)
    (hU : ∀ a, (f a).UUID = a.UUID) (hQ : ∀ a, Q (f a)) :
    ∀ (ms : List ZoneGroupMember) (accs accs' : List PAccessory),
      reflectMembers zA f ms accs = .ok accs' →
      ∀ u, foundSat accs u Q → foundSat accs' u Q := by
  intro ms
  induction ms with
  | nil =>
    intro accs accs' h u hs
    rw [reflectMembers_nil] at h
    simp only [Except.ok.injEq] at h
    rw [← h]
    exact hs
  | cons m rest ih =>
    intro accs accs' h u hs
    cases hr : reflectMember zA f m.zoneId accs with
    | error e =>
      rw [show reflectMembers zA f (m :: rest) accs = .error e from by
        have h0 : reflectMembers zA f (m :: rest) accs
            = match reflectMember zA f m.zoneId accs with
              | .error e => .error e
              | .ok a1 => reflectMembers zA f rest a1 := rfl
        rw [h0, hr]] at h
      simp at h
    | ok accs1 =>
      rw [reflectMembers_cons_ok zA f m rest accs accs1 hr] at h
      obtain ⟨info, _, haccs1⟩ := reflectMember_ok_inv zA f m.zoneId accs accs1 hr
      refine ih accs1 accs' h u ?_
      rw [haccs1]
      exact setFirstBy_foundSat_mono info.UUID u f Q hU hQ accs hs

/-- The main fan-out lemma: when every member of the group response
resolves against the cached zones array and the cached accessories, the
group loop succeeds, preserves the accessories' uuids, and afterwards
every member's resolved accessory satisfies the written postcondition. -/
theorem reflectMembers_spec (zA : List GZoneInfo) (f : PAccessory → PAccessory)
    (Q : PAccessory → Prop) (hU : ∀ a, (f a).UUID = a.UUID) (hQ : ∀ a, Q (f a)) :
    ∀ (ms : List ZoneGroupMember) (accs : List PAccessory),
      (∀ m ∈ ms, memberResolvable zA accs m = true) →
      ∃ accs', reflectMembers zA f ms accs = .ok accs' ∧
        accs'.map PAccessory.UUID = accs.map PAccessory.UUID ∧
        ∀ m ∈ ms, ∃ info, zA.find? (fun zi => zi.ZoneId == m.zoneId) = some info ∧
          foundSat accs' info.UUID Q := by
  intro ms
  induction ms with
  | nil =>
    intro accs _
    exact ⟨accs, rfl, rfl, by simp⟩
  | cons m rest ih =>
    intro accs h
    have hm := h m (List.mem_cons_self m rest)
    obtain ⟨info, hinfo, hsome, hok⟩ := reflectMember_ok_of_resolvable zA f m accs hm
    have hmap1 : (setFirstBy info.UUID f accs).map PAccessory.UUID
        = accs.map PAccessory.UUID := setFirstBy_map_uuid info.UUID f hU accs
    have hrest : ∀ m' ∈ rest, memberResolvable zA (setFirstBy info.UUID f accs) m' = true := by
      intro m' hm'
      rw [memberResolvable_congr zA m' _ accs hmap1]
      exact h m' (List.mem_cons_of_mem m hm')
    obtain ⟨accs', hok', hmap', hsat'⟩ := ih (setFirstBy info.UUID f accs) hrest
    refine ⟨accs', ?_, ?_, ?_⟩
    · rw [reflectMembers_cons_ok zA f m rest accs _ hok]
      exact hok'
    · rw [hmap', hmap1]
    · intro m' hm'
      rcases List.mem_cons.mp hm' with heq | hmem
      · subst heq
        refine ⟨info, hinfo, ?_⟩
        have hsat0 : foundSat (setFirstBy info.UUID f accs) info.UUID Q :=
          setFirstBy_foundSat_self info.UUID f Q hU hQ accs hsome
        exact reflectMembers_foundSat_mono zA f Q hU hQ rest _ accs' hok' info.UUID hsat0
      · exact hsat' m' hmem

/-! ## Claim C1 -/

/-- C1: a power or volume SET whose post-write response marks the zone as
a group (`Shared` stringifies to `"true"`) issues exactly one network
write and, provided each listed member resolves against the cached
zone→accessory mapping, sets every member's locally cached characteristic
(`On` for power, `Brightness` for volume) to the written value, with zero
additional network writes for members. -/
theorem C1_group_set_fanout (uri zid : String) (bv : Bool) (iv : Int)
    (resp : ZoneResponse) (zA : List GZoneInfo) (accs : List PAccessory)
    (huri : strContains uri "undefined" = false)
    (hgrp : resp.Shared = "true")
    (hres : ∀ m ∈ resp.ZoneGroupInfo, memberResolvable zA accs m = true) :
    (∃ r, setOnModel uri zid bv resp zA accs = .ok r ∧ r.writes = 1 ∧
      r.callbackCalled = true ∧
      ∀ m ∈ resp.ZoneGroupInfo, ∃ info,
        zA.find? (fun zi => zi.ZoneId == m.zoneId) = some info ∧
        ∃ a, r.accessories.find? (fun x => x.UUID == info.UUID) = some a ∧
          a.onChar = bv) ∧
    (∃ r, setVolumeModel uri zid iv resp zA accs = .ok r ∧ r.writes = 1 ∧
      r.callbackCalled = true ∧
      ∀ m ∈ resp.ZoneGroupInfo, ∃ info,
        zA.find? (fun zi => zi.ZoneId == m.zoneId) = some info ∧
        ∃ a, r.accessories.find? (fun x => x.UUID == info.UUID) = some a ∧
          a.brightnessChar = iv) := by
  have hshared : strContains resp.Shared "true" = true := by rw [hgrp]; decide
  constructor
  · obtain ⟨accs', hok, hmap, hsat⟩ :=
      reflectMembers_spec zA (fun a => { a with onChar := bv })
        (fun a => a.onChar = bv) (fun a => rfl) (fun a => rfl)
        resp.ZoneGroupInfo accs hres
    refine ⟨{ writes := 1, accessories := accs', callbackCalled := true,
              configErrorLogged := false }, ?_, rfl, rfl, ?_⟩
    · simp only [setOnModel, huri, Bool.false_eq_true, if_false, hshared, if_true, hok]
    · intro m hm
      obtain ⟨info, hinfo, hfs⟩ := hsat m hm
      exact ⟨info, hinfo, hfs⟩
  · obtain ⟨accs', hok, hmap, hsat⟩ :=
      reflectMembers_spec zA (fun a => { a with brightnessChar := iv })
        (fun a => a.brightnessChar = iv) (fun a => rfl) (fun a => rfl)
        resp.ZoneGroupInfo accs hres
    refine ⟨{ writes := 1, accessories := accs', callbackCalled := true,
              configErrorLogged := false }, ?_, rfl, rfl, ?_⟩
    · simp only [setVolumeModel, huri, Bool.false_eq_true, if_false, hshared, if_true, hok]
    · intro m hm
      obtain ⟨info, hinfo, hfs⟩ := hsat m hm
      exact ⟨info, hinfo, hfs⟩

/-- Witness for C1: a two-member group (spec §8's `[m1, m2]` scenario)
with both members resolvable; applying the theorem yields the single
write with both cached `On` states reflected. -/
theorem C1_group_set_fanout_witness :
    (strContains "http://192.168.1.10/api/v1" "undefined" = false ∧
      ({ Power := true, Volume := 0, Shared := "true",
         ZoneGroupInfo := [{ zoneId := "m1" }, { zoneId := "m2" }] } : ZoneResponse).Shared = "true" ∧
      ∀ m ∈ ({ Power := true, Volume := 0, Shared := "true",
               ZoneGroupInfo := [{ zoneId := "m1" }, { zoneId := "m2" }] } : ZoneResponse).ZoneGroupInfo,
        memberResolvable
          [{ ZoneId := "m1", UUID := "u1" }, { ZoneId := "m2", UUID := "u2" }]
          [{ UUID := "u1", displayName := "Kitchen Speakers", onChar := false, brightnessChar := 10 },
           { UUID := "u2", displayName := "Patio Speakers", onChar := false, brightnessChar := 20 }]
          m = true) ∧
    (∃ r, setOnModel "http://192.168.1.10/api/v1" "G" true
        { Power := true, Volume := 0, Shared := "true",
          ZoneGroupInfo := [{ zoneId := "m1" }, { zoneId := "m2" }] }
        [{ ZoneId := "m1", UUID := "u1" }, { ZoneId := "m2", UUID := "u2" }]
        [{ UUID := "u1", displayName := "Kitchen Speakers", onChar := false, brightnessChar := 10 },
         { UUID := "u2", displayName := "Patio Speakers", onChar := false, brightnessChar := 20 }]
        = .ok r ∧ r.writes = 1 ∧ r.callbackCalled = true ∧
      ∀ m ∈ ({ Power := true, Volume := 0, Shared := "true",
               ZoneGroupInfo := [{ zoneId := "m1" }, { zoneId := "m2" }] } : ZoneResponse).ZoneGroupInfo,
        ∃ info,
          ([{ ZoneId := "m1", UUID := "u1" },
            { ZoneId := "m2", UUID := "u2" }] : List GZoneInfo).find?
            (fun zi => zi.ZoneId == m.zoneId) = some info ∧
          ∃ a, r.accessories.find? (fun x => x.UUID == info.UUID) = some a ∧
            a.onChar = true) :=
  ⟨⟨by decide, by decide, by decide⟩,
    (C1_group_set_fanout "http://192.168.1.10/api/v1" "G" true 40
      { Power := true, Volume := 0, Shared := "true",
        ZoneGroupInfo := [{ zoneId := "m1" }, { zoneId := "m2" }] }
      [{ ZoneId := "m1", UUID := "u1" }, { ZoneId := "m2", UUID := "u2" }]
      [{ UUID := "u1", displayName := "Kitchen Speakers", onChar := false, brightnessChar := 10 },
       { UUID := "u2", displayName := "Patio Speakers", onChar := false, brightnessChar := 20 }]
      (by decide) (by decide) (by decide)).1⟩

/-! ## Claim C5 -/

/-- C5 (the code contradicts the skip-by-design contract): a group SET
whose member cannot be resolved does not skip the member — the handler
dereferences the failed lookup (`info.UUID` when the member's zone id is
not in the cached zones array, `accessory.displayName` in the debug log
when no accessory carries the uuid) and throws a `TypeError`, so the
operation does not complete and the callback is never invoked.  The three
conjuncts evaluate `setOn` with a member missing from the zones array,
`setOn` with a member whose uuid no accessory carries, and `setVolume`
with a member missing from the zones array. -/
theorem C5_resolution_miss_throws :
    setOnModel "http://192.168.1.10/api/v1" "G" true
      { Power := true, Volume := 0, Shared := "true",
        ZoneGroupInfo := [{ zoneId := "m1" }] }
      []
      [{ UUID := "u1", displayName := "Kitchen Speakers", onChar := false, brightnessChar := 10 }]
      = .error .typeError ∧
    setOnModel "http://192.168.1.10/api/v1" "G" true
      { Power := true, Volume := 0, Shared := "true",
        ZoneGroupInfo := [{ zoneId := "m1" }] }
      [{ ZoneId := "m1", UUID := "u9" }]
      [{ UUID := "u1", displayName := "Kitchen Speakers", onChar := false, brightnessChar := 10 }]
      = .error .typeError ∧
    setVolumeModel "http://192.168.1.10/api/v1" "G" 40
      { Power := true, Volume := 40, Shared := "true",
        ZoneGroupInfo := [{ zoneId := "m1" }] }
      [] []
      = .error .typeError := by
  refine ⟨rfl, rfl, rfl⟩
